import Mathlib

/-!
Shallow embedding of the draft-invoice assembly and submission workflow of
the invoice_creation module (src/modules/invoice_creation/routes.py and
models.py).  Database rows are modelled as records, the per-request database
session as explicit state passing, and every route handler as a pure
function returning (result, new state).  Remote SAP calls are modelled by a
parameter describing the remote outcome, since the handler's behaviour is a
pure function of that outcome.
-/

namespace LobbyInvoice

/-- Row of the SAP SQL-query result dictionary used by add_line_item and
lookup_serial.  Every key the code reads is an optional field; a missing key
is none (Python dict.get).  Integer-ish JSON values (BPLid) are kept as
strings since the code only shuffles them into other fields. -/
structure SapSerialData where
  ItemCode : Option String := none
  itemName : Option String := none
  ItemName : Option String := none
  WhsCode : Option String := none
  WhsName : Option String := none
  CardCode : Option String := none
  CardName : Option String := none
  BPLid : Option String := none
  BPLName : Option String := none
  deriving Repr, DecidableEq

/-- Row of the invoice_lines table (fields used by the workflow). -/
structure LineRow where
  id : Nat
  invoice_id : Nat
  line_number : Nat
  item_code : String
  item_description : String
  quantity : Nat
  warehouse_code : String
  warehouse_name : String
  deriving Repr, DecidableEq

/-- Row of the invoice_serial_numbers table (fields used by the workflow). -/
structure SerialRow where
  id : Nat
  invoice_line_id : Nat
  serial_number : String
  item_code : String
  item_description : String
  warehouse_code : String
  customer_code : String
  customer_name : String
  bpl_id : String
  bpl_name : String
  quantity : Nat
  validation_status : String
  validation_error : Option String
  deriving Repr, DecidableEq

/-- One entry of the SerialNumbers array of a SAP B1 DocumentLine. -/
structure SapSerialEntry where
  InternalSerialNumber : String
  Quantity : Nat
  BaseLineNumber : Nat
  deriving Repr, DecidableEq

/-- One DocumentLine of the generated SAP B1 invoice JSON. -/
structure SapDocLine where
  ItemCode : String
  ItemDescription : String
  Quantity : Nat
  WarehouseCode : String
  SerialNumbers : List SapSerialEntry
  deriving Repr, DecidableEq

/-- The SAP B1 invoice JSON generated by generate_sap_invoice_json.
Dates are modelled as day counts; DocDueDate is DocDate plus 30 days. -/
structure SapInvoice where
  DocDate : Nat
  DocDueDate : Nat
  BPL_IDAssignedToInvoice : String
  BPLName : String
  CardCode : Option String
  DocumentLines : List SapDocLine
  deriving Repr, DecidableEq

/-- Row of the invoice_documents table (fields used by the workflow).
Nullable columns are Option; json_payload stores the generated SAP JSON
structurally rather than as a serialized string. -/
structure Invoice where
  id : Nat
  customer_code : Option String
  customer_name : Option String
  branch_id : Option Nat
  branch_name : Option String
  status : String
  sap_doc_entry : Option Nat
  sap_doc_num : Option String
  sap_response : Option String
  json_payload : Option SapInvoice
  notes : Option String
  deriving Repr, DecidableEq

/-- Database state relevant to one request: the target invoice document,
the invoice_lines and invoice_serial_numbers tables, and the next fresh
primary keys the database would assign. -/
structure DraftState where
  invoice : Invoice
  lines : List LineRow
  serials : List SerialRow
  next_line_id : Nat
  next_serial_id : Nat
  deriving Repr, DecidableEq

/-- Python truthiness of a nullable string column: None and the empty
string are falsy. -/
def truthy : Option String → Bool
  | none => false
  | some s => !(s == "")

/-- Lines belonging to the target invoice (the invoice.lines relationship,
also InvoiceLine.query.filter_by(invoice_id=invoice.id)). -/
def invoiceLines (st : DraftState) : List LineRow :=
  st.lines.filter (fun l => l.invoice_id == st.invoice.id)

/-- Serial rows belonging to one line (the line.serial_numbers
relationship). -/
def lineSerials (st : DraftState) (l : LineRow) : List SerialRow :=
  st.serials.filter (fun s => s.invoice_line_id == l.id)

/-- All serial rows of the target invoice in iteration order: for line in
invoice.lines, for serial_item in line.serial_numbers. -/
def invoiceSerials (st : DraftState) : List SerialRow :=
  (invoiceLines st).flatMap (fun l => lineSerials st l)

/-- Status gate shared by add_line_item, remove_line_item and
clear_all_items: mutation is allowed only in draft or pending_qc. -/
def statusAllowsEdit (s : String) : Bool :=
  s == "draft" || s == "pending_qc"

/-- Duplicate check of add_line_item: InvoiceSerialNumber joined with
InvoiceLine, filtered by the invoice id and the serial number. -/
def serialExistsInInvoice (st : DraftState) (sn : String) : Bool :=
  st.serials.any (fun s =>
    s.serial_number == sn &&
    st.lines.any (fun l => l.id == s.invoice_line_id && l.invoice_id == st.invoice.id))

/-- Outcome of the SAP serial validation performed inside add_line_item:
either SAP is unconfigured or login fails (offline fallback), or the SQL
query returns a row, returns no row, returns a non-200 status, or raises. -/
inductive SapLookup where
  | found (d : SapSerialData)
  | notFound
  | apiError (code : Nat)
  | connError (msg : String)
  | offline
  deriving Repr, DecidableEq

/-- The (validation_result, validation_status, validation_error) triple
computed by the SAP validation block of add_line_item. -/
def runValidation (serial_number : String) (lk : SapLookup) :
    SapSerialData × String × Option String :=
  match lk with
  | .found d => (d, "validated", none)
  | .notFound =>
      ({}, "failed",
        some ("Serial number " ++ serial_number ++ " not found in SAP B1 inventory"))
  | .apiError c => ({}, "failed", some ("SAP API error: " ++ toString c))
  | .connError m => ({}, "failed", some ("SAP connection error: " ++ m))
  | .offline => ({}, "validated", none)

/-- HTTP-level result of the add_line_item handler. -/
inductive AddResult where
  | ok (serial_id : Nat) (line_number : Nat) (customer_locked : Bool)
  | accessDenied
  | badStatus
  | missingSerial
  | duplicate
  | customerLocked (frozen : String) (detected : String)
  deriving Repr, DecidableEq

/-- Next line number assigned by add_line_item: one plus the maximum
line_number over the invoice's existing lines (0 when there are none). -/
def nextLineNumber (st : DraftState) : Nat :=
  (((st.lines.filter (fun l => l.invoice_id == st.invoice.id)).map
      (fun l => l.line_number)).foldr Nat.max 0) + 1

/-- The invoice_line row created by add_line_item from the validation
result (field by field as assigned in the handler). -/
def newLineRow (st : DraftState) (serial_number : String) (lk : SapLookup) : LineRow :=
  let validation_result := (runValidation serial_number lk).1
  { id := st.next_line_id
    invoice_id := st.invoice.id
    line_number := nextLineNumber st
    item_code := validation_result.ItemCode.getD "UNKNOWN"
    item_description :=
      validation_result.itemName.getD (validation_result.ItemName.getD "Unknown Item")
    quantity := 1
    warehouse_code := validation_result.WhsCode.getD ""
    warehouse_name := validation_result.WhsName.getD "" }

/-- The serial_item row created by add_line_item (field by field as
assigned in the handler; customer_code comes from request.args cusCode). -/
def newSerialRow (st : DraftState) (serial_number cusCodeArg : String)
    (lk : SapLookup) : SerialRow :=
  let validation_result := (runValidation serial_number lk).1
  { id := st.next_serial_id
    invoice_line_id := st.next_line_id
    serial_number := serial_number
    item_code := validation_result.ItemCode.getD "UNKNOWN"
    item_description :=
      validation_result.itemName.getD (validation_result.ItemName.getD "Unknown Item")
    warehouse_code := validation_result.WhsCode.getD ""
    customer_code := cusCodeArg
    customer_name := validation_result.CardName.getD ""
    bpl_id := validation_result.BPLid.getD ""
    bpl_name := validation_result.BPLName.getD ""
    quantity := 1
    validation_status := (runValidation serial_number lk).2.1
    validation_error := (runValidation serial_number lk).2.2 }

/-- Session state after add_line_item has added and flushed the new line
and serial rows, before the customer-freeze block runs. -/
def flushedState (st : DraftState) (serial_number cusCodeArg : String)
    (lk : SapLookup) : DraftState :=
  { st with
    lines := st.lines ++ [newLineRow st serial_number lk]
    serials := st.serials ++ [newSerialRow st serial_number cusCodeArg lk]
    next_line_id := st.next_line_id + 1
    next_serial_id := st.next_serial_id + 1 }

/-- The add_line_item route handler.  perm models the ownership/role check;
cusCodeArg models request.args.get of cusCode; lk models the SAP validation
outcome.  A 4xx return before commit leaves the database unchanged (the
session is rolled back), hence those branches return st itself.  Note that
existing_lines_count is computed after the new line has been flushed, so it
counts that new line as well. -/
def add_line_item (st : DraftState) (perm : Bool) (serial_number : String)
    (cusCodeArg : String) (lk : SapLookup) : AddResult × DraftState :=
  if !perm then (.accessDenied, st)
  else if !(statusAllowsEdit st.invoice.status) then (.badStatus, st)
  else if serial_number == "" then (.missingSerial, st)
  else if serialExistsInInvoice st serial_number then (.duplicate, st)
  else
    let validation_result := (runValidation serial_number lk).1
    let line_no := nextLineNumber st
    let serial_item := newSerialRow st serial_number cusCodeArg lk
    let flushed := flushedState st serial_number cusCodeArg lk
    let existing_lines_count :=
      (flushed.lines.filter (fun l => l.invoice_id == st.invoice.id)).length
    if truthy validation_result.CardCode && !(truthy st.invoice.customer_code)
        && (existing_lines_count == 0) then
      let inv2 := { st.invoice with
        customer_code := validation_result.CardCode
        customer_name := some (validation_result.CardName.getD "") }
      (.ok serial_item.id line_no (truthy inv2.customer_code),
       { flushed with invoice := inv2 })
    else if truthy st.invoice.customer_code && decide (0 < existing_lines_count) then
      let detected_customer := validation_result.CardCode.getD ""
      if !(detected_customer == "") && !(st.invoice.customer_code == some detected_customer) then
        (.customerLocked (st.invoice.customer_code.getD "") detected_customer, st)
      else
        (.ok serial_item.id line_no (truthy st.invoice.customer_code), flushed)
    else
      (.ok serial_item.id line_no (truthy st.invoice.customer_code), flushed)

/-- HTTP-level result of the remove_line_item handler. -/
inductive RemoveResult where
  | ok (serial_number : String)
  | accessDenied
  | badStatus
  | itemMissing
  | wrongInvoice
  deriving Repr, DecidableEq

/-- The remove_line_item route handler.  Deleting the owning line cascades
(all, delete-orphan) to every serial row attached to that line. -/
def remove_line_item (st : DraftState) (perm : Bool) (item_id : Nat) :
    RemoveResult × DraftState :=
  if !perm then (.accessDenied, st)
  else if !(statusAllowsEdit st.invoice.status) then (.badStatus, st)
  else
    match st.serials.find? (fun s => s.id == item_id) with
    | none => (.itemMissing, st)
    | some serial_item =>
      match st.lines.find? (fun l => l.id == serial_item.invoice_line_id) with
      | none => (.itemMissing, st)
      | some invoice_line =>
        if !(invoice_line.invoice_id == st.invoice.id) then (.wrongInvoice, st)
        else
          (.ok serial_item.serial_number,
           { st with
             serials := st.serials.filter (fun s => !(s.invoice_line_id == invoice_line.id))
             lines := st.lines.filter (fun l => !(l.id == invoice_line.id)) })

/-- HTTP-level result of the clear_all_items handler. -/
inductive ClearResult where
  | ok (items_cleared : Nat)
  | accessDenied
  | badStatus
  | nothingToClear
  deriving Repr, DecidableEq

/-- The clear_all_items route handler: deletes every line of the invoice
with its serial rows and resets the customer columns to NULL. -/
def clear_all_items (st : DraftState) (perm : Bool) : ClearResult × DraftState :=
  if !perm then (.accessDenied, st)
  else if !(statusAllowsEdit st.invoice.status) then (.badStatus, st)
  else
    let item_count := (st.lines.filter (fun l => l.invoice_id == st.invoice.id)).length
    if item_count == 0 then (.nothingToClear, st)
    else
      (.ok item_count,
       { st with
         lines := st.lines.filter (fun l => !(l.invoice_id == st.invoice.id))
         serials := st.serials.filter (fun s =>
           !(st.lines.any (fun l => l.invoice_id == st.invoice.id && l.id == s.invoice_line_id)))
         invoice := { st.invoice with customer_code := none, customer_name := none } })

/-- HTTP-level result of the submit_for_qc handler. -/
inductive SubmitResult where
  | ok
  | accessDenied
  | badStatus
  | noLines
  deriving Repr, DecidableEq

/-- The submit_for_qc route handler.  When the request body carries a
truthy customer_code the invoice customer columns are overwritten from the
body before the status moves to pending_qc. -/
def submit_for_qc (st : DraftState) (perm : Bool)
    (body_customer_code : Option String) (body_customer_name : Option String) :
    SubmitResult × DraftState :=
  if !perm then (.accessDenied, st)
  else if !(st.invoice.status == "draft") then (.badStatus, st)
  else if (st.lines.filter (fun l => l.invoice_id == st.invoice.id)).isEmpty then
    (.noLines, st)
  else
    let inv1 :=
      if truthy body_customer_code then
        { st.invoice with
          customer_code := body_customer_code
          customer_name := some (body_customer_name.getD "") }
      else st.invoice
    (.ok, { st with invoice := { inv1 with status := "pending_qc" } })

/-- HTTP-level result of the qc_reject handler. -/
inductive RejectResult where
  | ok
  | accessDenied
  | badStatus
  deriving Repr, DecidableEq

/-- The qc_reject route handler. -/
def qc_reject_invoice (st : DraftState) (perm : Bool) (rejection_reason : String) :
    RejectResult × DraftState :=
  if !perm then (.accessDenied, st)
  else if !(st.invoice.status == "pending_qc") then (.badStatus, st)
  else
    (.ok,
     { st with invoice := { st.invoice with
         status := "rejected"
         notes := some ("Rejected by QC: " ++ rejection_reason) } })

/-- One grouped-items dict value built by generate_sap_invoice_json before
BaseLineNumber assignment: the group attributes plus its
(serial number, quantity) pairs in insertion order. -/
structure SerialGroup where
  ItemCode : String
  ItemDescription : String
  WarehouseCode : String
  SerialNumbers : List (String × Nat)
  deriving Repr, DecidableEq

/-- Grouping key of generate_sap_invoice_json: the Python f-string
ItemCode_WarehouseCode, a plain string concatenation with an underscore. -/
def groupKey (s : SerialRow) : String :=
  s.item_code ++ "_" ++ s.warehouse_code

/-- One step of the grouping loop: append the serial to its existing group,
or open a new group at the end (Python dict insertion order). -/
def insertSerial (groups : List (String × SerialGroup)) (s : SerialRow) :
    List (String × SerialGroup) :=
  if groups.any (fun g => g.1 == groupKey s) then
    groups.map (fun g =>
      if g.1 == groupKey s then
        (g.1, { g.2 with SerialNumbers := g.2.SerialNumbers ++ [(s.serial_number, s.quantity)] })
      else g)
  else
    groups ++ [(groupKey s,
      { ItemCode := s.item_code
        ItemDescription := s.item_description
        WarehouseCode := s.warehouse_code
        SerialNumbers := [(s.serial_number, s.quantity)] })]

/-- The grouped_items dict of generate_sap_invoice_json, as an
insertion-ordered association list. -/
def groupSerials (ss : List SerialRow) : List (String × SerialGroup) :=
  ss.foldl insertSerial []

/-- Conversion of the grouped items to DocumentLines: the group at position
j gets BaseLineNumber j on each of its serials, and its Quantity is the
number of serials in the group. -/
def mkDocumentLines (groups : List (String × SerialGroup)) : List SapDocLine :=
  groups.enum.map (fun p =>
    { ItemCode := p.2.2.ItemCode
      ItemDescription := p.2.2.ItemDescription
      Quantity := p.2.2.SerialNumbers.length
      WarehouseCode := p.2.2.WarehouseCode
      SerialNumbers := p.2.2.SerialNumbers.map (fun sq =>
        { InternalSerialNumber := sq.1, Quantity := sq.2, BaseLineNumber := p.1 }) })

/-- The generate_sap_invoice_json function.  The BPL fields read the Python
variable serial_item leaked from the grouping loop, i.e. the last serial row
iterated; with no serial row at all that variable is unbound and the
function raises (modelled as none).  now is the current date in days. -/
def generate_sap_invoice_json (st : DraftState) (now : Nat) : Option SapInvoice :=
  let ss := invoiceSerials st
  match ss.getLast? with
  | none => none
  | some serial_item =>
    some
      { DocDate := now
        DocDueDate := now + 30
        BPL_IDAssignedToInvoice := serial_item.bpl_id
        BPLName := serial_item.bpl_name
        CardCode := st.invoice.customer_code
        DocumentLines := mkDocumentLines (groupSerials ss) }

/-- Outcome of the HTTP POST to the SAP B1 Invoices endpoint (or of the
configuration/login checks before it) in post_invoice_to_sap_b1. -/
inductive SapPost where
  | configMissing
  | loginFailed
  | created (doc_entry : Nat) (doc_num : String) (raw : String)
  | httpError (code : Nat) (text : String)
  | exn (msg : String)
  deriving Repr, DecidableEq

/-- Result dict of post_invoice_to_sap_b1. -/
structure PostOutcome where
  success : Bool
  sap_doc_entry : Option Nat
  sap_doc_num : Option String
  sap_response : Option String
  errorText : Option String
  deriving Repr, DecidableEq

/-- The post_invoice_to_sap_b1 function as a pure function of the remote
outcome: success exactly on a 201 response, every other outcome yields a
success=False dict carrying an error string. -/
def post_invoice_to_sap_b1 (r : SapPost) : PostOutcome :=
  match r with
  | .configMissing =>
      { success := false, sap_doc_entry := none, sap_doc_num := none,
        sap_response := none, errorText := some "SAP B1 configuration missing" }
  | .loginFailed =>
      { success := false, sap_doc_entry := none, sap_doc_num := none,
        sap_response := none, errorText := some "SAP B1 login failed" }
  | .created e n raw =>
      { success := true, sap_doc_entry := some e, sap_doc_num := some n,
        sap_response := some raw, errorText := none }
  | .httpError c t =>
      { success := false, sap_doc_entry := none, sap_doc_num := none,
        sap_response := none, errorText := some ("HTTP " ++ toString c ++ ": " ++ t) }
  | .exn m =>
      { success := false, sap_doc_entry := none, sap_doc_num := none,
        sap_response := none, errorText := some m }

/-- HTTP-level result of the qc_approve handler. -/
inductive ApproveResult where
  | ok (sap_doc_entry : Option Nat) (sap_doc_num : Option String)
  | accessDenied
  | badStatus
  | missingCustomer
  | noLines
  | internalError
  | sapError (msg : String)
  deriving Repr, DecidableEq

/-- The qc_approve route handler.  On SAP success the invoice moves to
posted and stores the SAP references and the generated payload; on SAP
failure the handler returns a 500 without touching the invoice row. -/
def qc_approve_invoice (st : DraftState) (perm : Bool) (now : Nat) (sap : SapPost) :
    ApproveResult × DraftState :=
  if !perm then (.accessDenied, st)
  else if !(st.invoice.status == "pending_qc") then (.badStatus, st)
  else if !(truthy st.invoice.customer_code) then (.missingCustomer, st)
  else if (st.lines.filter (fun l => l.invoice_id == st.invoice.id)).isEmpty then
    (.noLines, st)
  else
    match generate_sap_invoice_json st now with
    | none => (.internalError, st)
    | some payload =>
      let sap_result := post_invoice_to_sap_b1 sap
      if sap_result.success then
        (.ok sap_result.sap_doc_entry sap_result.sap_doc_num,
         { st with invoice := { st.invoice with
             status := "posted"
             sap_doc_entry := sap_result.sap_doc_entry
             sap_doc_num := sap_result.sap_doc_num
             sap_response := sap_result.sap_response
             json_payload := some payload } })
      else
        (.sapError (sap_result.errorText.getD "Unknown error"), st)

/-- Row of the serial_number_lookups cache table.  last_updated is in
minutes; branch_id is kept as the raw optional string the code stores. -/
structure CacheEntry where
  serial_number : String
  item_code : Option String
  item_name : Option String
  warehouse_code : Option String
  warehouse_name : Option String
  branch_id : Option String
  branch_name : Option String
  lookup_status : String
  sap_response : Option String
  last_updated : Nat
  deriving Repr, DecidableEq

/-- Outcome of the remote SAP SQL query issued by lookup_serial when the
cache cannot serve the request. -/
inductive RemoteLookup where
  | loginFailed
  | found (d : SapSerialData) (raw : String)
  | notFound
  | httpError (code : Nat)
  | exn (msg : String)
  deriving Repr, DecidableEq

/-- HTTP-level result of the lookup_serial handler. -/
inductive LookupResult where
  | cachedHit (item_code item_name warehouse_code warehouse_name
      branch_id branch_name : Option String)
  | freshHit (d : SapSerialData)
  | missingSerial
  | connFailed
  | serialNotFound
  | queryFailed (code : Nat)
  | lookupFailed (msg : String)
  deriving Repr, DecidableEq

/-- Freshness predicate of the cache: the entry is served without a remote
call only when now minus last_updated is under one hour (60 minutes).
Natural subtraction truncates at zero exactly as a non-positive timedelta
also satisfies the Python comparison. -/
def cacheFresh (e : CacheEntry) (now : Nat) : Bool :=
  now - e.last_updated < 60

/-- Cache upsert performed by lookup_serial on a successful remote result:
update the existing row for the serial, or insert a new one; either way the
resolved attributes are overwritten and last_updated becomes now. -/
def upsertCache (cache : List CacheEntry) (serial_number : String)
    (d : SapSerialData) (raw : String) (now : Nat) : List CacheEntry :=
  if cache.any (fun e => e.serial_number == serial_number) then
    cache.map (fun e =>
      if e.serial_number == serial_number then
        { e with
          item_code := d.ItemCode
          item_name := d.itemName
          warehouse_code := d.WhsCode
          warehouse_name := d.WhsName
          branch_id := d.BPLid
          branch_name := d.BPLName
          lookup_status := "validated"
          sap_response := some raw
          last_updated := now }
      else e)
  else
    cache ++ [{ serial_number := serial_number
                item_code := d.ItemCode
                item_name := d.itemName
                warehouse_code := d.WhsCode
                warehouse_name := d.WhsName
                branch_id := d.BPLid
                branch_name := d.BPLName
                lookup_status := "validated"
                sap_response := some raw
                last_updated := now }]

/-- Remote half of lookup_serial: login, SQL query, and on a non-empty
result the cache upsert. -/
def lookupRemote (cache : List CacheEntry) (now : Nat) (serial_number : String)
    (remote : RemoteLookup) : LookupResult × List CacheEntry :=
  match remote with
  | .loginFailed => (.connFailed, cache)
  | .found d raw => (.freshHit d, upsertCache cache serial_number d raw now)
  | .notFound => (.serialNotFound, cache)
  | .httpError c => (.queryFailed c, cache)
  | .exn m => (.lookupFailed m, cache)

/-- The lookup_serial route handler: serve from the cache when a row for
the serial exists and is fresh, otherwise fall through to the remote call. -/
def lookup_serial (cache : List CacheEntry) (now : Nat) (serial_number : String)
    (remote : RemoteLookup) : LookupResult × List CacheEntry :=
  if serial_number == "" then (.missingSerial, cache)
  else
    match cache.find? (fun e => e.serial_number == serial_number) with
    | some cached_lookup =>
      if cacheFresh cached_lookup now then
        (.cachedHit cached_lookup.item_code cached_lookup.item_name
            cached_lookup.warehouse_code cached_lookup.warehouse_name
            cached_lookup.branch_id cached_lookup.branch_name, cache)
      else lookupRemote cache now serial_number remote
    | none => lookupRemote cache now serial_number remote

/-- Referential well-formedness of a database state: primary keys already
in the tables are below the next fresh keys, and every serial row's foreign
key also is (it points at an existing or at least non-future line). -/
def wfState (st : DraftState) : Prop :=
  (∀ l ∈ st.lines, l.id < st.next_line_id) ∧
  (∀ s ∈ st.serials, s.id < st.next_serial_id) ∧
  (∀ s ∈ st.serials, s.invoice_line_id < st.next_line_id)

instance (st : DraftState) : Decidable (wfState st) := by
  unfold wfState; infer_instance

/-- Empty draft invoice as created by the create_draft handler. -/
def freshInvoice : Invoice :=
  { id := 1
    customer_code := none
    customer_name := none
    branch_id := none
    branch_name := none
    status := "draft"
    sap_doc_entry := none
    sap_doc_num := none
    sap_response := none
    json_payload := none
    notes := none }

/-- Empty draft state: a freshly created draft with no rows yet. -/
def freshState : DraftState :=
  { invoice := freshInvoice
    lines := []
    serials := []
    next_line_id := 1
    next_serial_id := 1 }

/-- Distinct serial numbers within the draft (the uniqueness invariant of
the spec, as a predicate on states). -/
def draftSerialsNodup (st : DraftState) : Prop :=
  ((invoiceSerials st).map (fun s => s.serial_number)).Nodup

instance (st : DraftState) : Decidable (draftSerialsNodup st) := by
  unfold draftSerialsNodup; infer_instance

/-- Lines of the flushed state that belong to the invoice are the old ones
plus the new line. -/
theorem flushed_lines_filter (st : DraftState) (sn cus : String) (lk : SapLookup) :
    (flushedState st sn cus lk).lines.filter (fun l => l.invoice_id == st.invoice.id) =
      st.lines.filter (fun l => l.invoice_id == st.invoice.id) ++ [newLineRow st sn lk] := by
  simp [flushedState, List.filter_append, newLineRow]

/-- The line count taken by the customer-freeze block can never be zero,
because it already includes the line just flushed. -/
theorem flushed_count_ne_zero (st : DraftState) (sn cus : String) (lk : SapLookup) :
    (((flushedState st sn cus lk).lines.filter
        (fun l => l.invoice_id == st.invoice.id)).length == 0) = false := by
  rw [flushed_lines_filter]
  simp

/-- The add_line_item handler never changes the invoice customer columns:
the branch that would set them requires a zero line count that is
impossible at that point. -/
theorem add_line_item_invoice_eq (st : DraftState) (perm : Bool) (sn cus : String)
    (lk : SapLookup) :
    (add_line_item st perm sn cus lk).2.invoice = st.invoice := by
  simp only [add_line_item]
  split
  · rfl
  split
  · rfl
  split
  · rfl
  split
  · rfl
  split
  · next h =>
    rw [Bool.and_eq_true, Bool.and_eq_true] at h
    rw [flushed_count_ne_zero] at h
    exact absurd h.2 (by simp)
  split
  · split
    · rfl
    · rfl
  · rfl

/-- The state after add_line_item is either unchanged (any rejection) or
exactly the flushed state with the new line and serial rows; in the latter
case the duplicate check did not fire. -/
theorem add_line_item_state_cases (st : DraftState) (perm : Bool) (sn cus : String)
    (lk : SapLookup) :
    (add_line_item st perm sn cus lk).2 = st ∨
      ((add_line_item st perm sn cus lk).2 = flushedState st sn cus lk ∧
        serialExistsInInvoice st sn = false) := by
  simp only [add_line_item]
  split
  · exact Or.inl rfl
  split
  · exact Or.inl rfl
  split
  · exact Or.inl rfl
  split
  · exact Or.inl rfl
  next hdup =>
  split
  · next h =>
    rw [Bool.and_eq_true, Bool.and_eq_true] at h
    rw [flushed_count_ne_zero] at h
    exact absurd h.2 (by simp)
  split
  · split
    · exact Or.inl rfl
    · exact Or.inr ⟨rfl, by simpa using hdup⟩
  · exact Or.inr ⟨rfl, by simpa using hdup⟩

/-- The remove_line_item handler never touches the invoice row. -/
theorem remove_line_item_invoice_eq (st : DraftState) (perm : Bool) (item_id : Nat) :
    (remove_line_item st perm item_id).2.invoice = st.invoice := by
  simp only [remove_line_item]
  repeat (first | rfl | split)

/-- The qc_approve handler never touches the customer columns. -/
theorem qc_approve_customer_eq (st : DraftState) (perm : Bool) (now : Nat)
    (sap : SapPost) :
    (qc_approve_invoice st perm now sap).2.invoice.customer_code
      = st.invoice.customer_code := by
  simp only [qc_approve_invoice]
  repeat (first | rfl | split)

/-- The qc_reject handler never touches the customer columns. -/
theorem qc_reject_customer_eq (st : DraftState) (perm : Bool) (reason : String) :
    (qc_reject_invoice st perm reason).2.invoice.customer_code
      = st.invoice.customer_code := by
  simp only [qc_reject_invoice]
  repeat (first | rfl | split)

/-- The customer column after submit_for_qc: overwritten by a truthy body
customer_code on success, untouched otherwise. -/
theorem submit_for_qc_customer (st : DraftState) (perm : Bool)
    (bcc bcn : Option String) :
    (submit_for_qc st perm bcc bcn).2.invoice.customer_code =
      (match (submit_for_qc st perm bcc bcn).1 with
       | SubmitResult.ok => if truthy bcc then bcc else st.invoice.customer_code
       | _ => st.invoice.customer_code) := by
  simp only [submit_for_qc]
  repeat (first | rfl | split)

/-- The customer column after clear_all_items: reset to NULL on success,
untouched otherwise. -/
theorem clear_all_items_customer (st : DraftState) (perm : Bool) :
    (clear_all_items st perm).2.invoice.customer_code =
      (match (clear_all_items st perm).1 with
       | ClearResult.ok _ => none
       | _ => st.invoice.customer_code) := by
  simp only [clear_all_items]
  repeat (first | rfl | split)

/-- Sample resolved attributes for serial SN100: item I1 in warehouse W1,
owned by customer C1. -/
def c1Data : SapSerialData :=
  { ItemCode := some "I1"
    itemName := some "Item One"
    WhsCode := some "W1"
    WhsName := some "WH One"
    CardCode := some "C1"
    CardName := some "Customer One"
    BPLid := some "5"
    BPLName := some "ORD-CHENNAI" }

/-- Sample invoice line row of invoice 1. -/
def sampleLine : LineRow :=
  { id := 1
    invoice_id := 1
    line_number := 1
    item_code := "I1"
    item_description := "Item One"
    quantity := 1
    warehouse_code := "W1"
    warehouse_name := "WH One" }

/-- Sample serial row SN100 attached to line 1. -/
def sampleSerial : SerialRow :=
  { id := 1
    invoice_line_id := 1
    serial_number := "SN100"
    item_code := "I1"
    item_description := "Item One"
    warehouse_code := "W1"
    customer_code := ""
    customer_name := "Customer One"
    bpl_id := "5"
    bpl_name := "ORD-CHENNAI"
    quantity := 1
    validation_status := "validated"
    validation_error := none }

/-- Draft with a frozen customer C1 and one line with one serial. -/
def c2State : DraftState :=
  { invoice := { freshInvoice with
      customer_code := some "C1"
      customer_name := some "Customer One" }
    lines := [sampleLine]
    serials := [sampleSerial]
    next_line_id := 2
    next_serial_id := 2 }

/-- C1: the spec says the first successfully added serial sets and freezes
the draft customer from the resolved attributes, but the handler computes
the line count only after flushing the new line, so the count is never zero
and the customer-setting branch is unreachable: add_line_item never changes
the customer columns, and on a fresh draft the first accepted serial (with
resolved customer C1) leaves the draft customer NULL. -/
theorem c1_first_serial_customer_freeze :
    (∀ st perm sn cus lk,
        (add_line_item st perm sn cus lk).2.invoice.customer_code
          = st.invoice.customer_code) ∧
    (add_line_item freshState true "SN100" "" (SapLookup.found c1Data)).1
      = AddResult.ok 1 1 false ∧
    (add_line_item freshState true "SN100" "" (SapLookup.found c1Data)).2.invoice.customer_code
      = none := by
  refine ⟨?_, by decide, by decide⟩
  intro st perm sn cus lk
  rw [add_line_item_invoice_eq]

/-- C2 counterexample: on a draft whose customer is already C1 and that has
a line, submit_for_qc with a request body carrying customer_code C2
succeeds and overwrites the frozen customer. -/
theorem c2_counterexample_submit_overwrites :
    c2State.invoice.customer_code = some "C1" ∧
    (submit_for_qc c2State true (some "C2") (some "Customer Two")).1 = SubmitResult.ok ∧
    (submit_for_qc c2State true (some "C2") (some "Customer Two")).2.invoice.customer_code
      = some "C2" := by
  decide

/-- C2 amended: add_serial, remove_serial, approve and reject never change
the draft customer_code, and clear_all on success resets it to NULL, but
submit_for_review overwrites it whenever the request body supplies a truthy
customer_code (leaving it unchanged otherwise). -/
theorem c2_customer_code_stability (st : DraftState) (perm : Bool)
    (sn cus : String) (lk : SapLookup) (item_id : Nat) (reason : String)
    (now : Nat) (sap : SapPost) (bcc bcn : Option String) :
    (add_line_item st perm sn cus lk).2.invoice.customer_code
      = st.invoice.customer_code ∧
    (remove_line_item st perm item_id).2.invoice.customer_code
      = st.invoice.customer_code ∧
    (qc_approve_invoice st perm now sap).2.invoice.customer_code
      = st.invoice.customer_code ∧
    (qc_reject_invoice st perm reason).2.invoice.customer_code
      = st.invoice.customer_code ∧
    (submit_for_qc st perm bcc bcn).2.invoice.customer_code =
      (match (submit_for_qc st perm bcc bcn).1 with
       | SubmitResult.ok => if truthy bcc then bcc else st.invoice.customer_code
       | _ => st.invoice.customer_code) ∧
    (clear_all_items st perm).2.invoice.customer_code =
      (match (clear_all_items st perm).1 with
       | ClearResult.ok _ => none
       | _ => st.invoice.customer_code) := by
  refine ⟨?_, ?_, ?_, ?_, ?_, ?_⟩
  · rw [add_line_item_invoice_eq]
  · rw [remove_line_item_invoice_eq]
  · exact qc_approve_customer_eq st perm now sap
  · exact qc_reject_customer_eq st perm reason
  · exact submit_for_qc_customer st perm bcc bcn
  · exact clear_all_items_customer st perm

/-- Draft already posted to SAP: no mutation may be accepted any more. -/
def c6State : DraftState :=
  { c2State with invoice := { c2State.invoice with status := "posted" } }

/-- C6: in any status other than draft and pending_qc, add_line_item,
remove_line_item and clear_all_items are rejected with the status error and
the whole database state is returned unchanged. -/
theorem c6_status_gate (st : DraftState) (sn cus : String) (lk : SapLookup)
    (item_id : Nat)
    (h : statusAllowsEdit st.invoice.status = false) :
    add_line_item st true sn cus lk = (AddResult.badStatus, st) ∧
    remove_line_item st true item_id = (RemoveResult.badStatus, st) ∧
    clear_all_items st true = (ClearResult.badStatus, st) := by
  unfold add_line_item remove_line_item clear_all_items
  simp [h]

/-- Witness for c6_status_gate at a posted draft. -/
theorem c6_status_gate_witness :
    statusAllowsEdit c6State.invoice.status = false ∧
    (add_line_item c6State true "SN200" "" SapLookup.notFound = (AddResult.badStatus, c6State) ∧
     remove_line_item c6State true 1 = (RemoveResult.badStatus, c6State) ∧
     clear_all_items c6State true = (ClearResult.badStatus, c6State)) :=
  ⟨by decide, c6_status_gate c6State "SN200" "" SapLookup.notFound 1 (by decide)⟩

/-- Draft with customer C1, one line and one serial, pending QC approval. -/
def c3State : DraftState :=
  { c2State with invoice := { c2State.invoice with status := "pending_qc" } }

/-- The SAP invoice JSON generated from c3State at date 100. -/
def c3Payload : SapInvoice :=
  { DocDate := 100
    DocDueDate := 130
    BPL_IDAssignedToInvoice := "5"
    BPLName := "ORD-CHENNAI"
    CardCode := some "C1"
    DocumentLines :=
      [{ ItemCode := "I1"
         ItemDescription := "Item One"
         Quantity := 1
         WarehouseCode := "W1"
         SerialNumbers := [{ InternalSerialNumber := "SN100", Quantity := 1, BaseLineNumber := 0 }] }] }

/-- C3 counterexample: on a pending_qc draft with a customer and a line, a
SAP posting failure (HTTP 400) makes qc_approve return the error but leave
the draft completely unchanged: the status stays pending_qc instead of
becoming failed, and no error is stored on the draft. -/
theorem c3_counterexample_failure_keeps_pending :
    (qc_approve_invoice c3State true 100 (SapPost.httpError 400 "Bad Request")).1
      = ApproveResult.sapError "HTTP 400: Bad Request" ∧
    (qc_approve_invoice c3State true 100 (SapPost.httpError 400 "Bad Request")).2
      = c3State ∧
    c3State.invoice.status = "pending_qc" := by
  decide

/-- C3 amended: for a pending_qc draft with a customer and at least one
line, approve invokes the ERP submission; on a 201 the draft becomes posted
and stores the returned document references, payload and response, while on
any ERP failure (non-201, connection error, login failure) the handler
returns the error but the draft is left unchanged (still pending_qc,
nothing stored). -/
theorem c3_approve_outcomes (st : DraftState) (now : Nat) (sap : SapPost)
    (payload : SapInvoice)
    (hstatus : st.invoice.status = "pending_qc")
    (hcust : truthy st.invoice.customer_code = true)
    (hlines : (st.lines.filter (fun l => l.invoice_id == st.invoice.id)).isEmpty = false)
    (hgen : generate_sap_invoice_json st now = some payload) :
    (∀ e n raw, sap = SapPost.created e n raw →
        qc_approve_invoice st true now sap =
          (ApproveResult.ok (some e) (some n),
           { st with invoice := { st.invoice with
               status := "posted"
               sap_doc_entry := some e
               sap_doc_num := some n
               sap_response := some raw
               json_payload := some payload } })) ∧
    ((post_invoice_to_sap_b1 sap).success = false →
        (qc_approve_invoice st true now sap).2 = st ∧
        (qc_approve_invoice st true now sap).1 =
          ApproveResult.sapError
            ((post_invoice_to_sap_b1 sap).errorText.getD "Unknown error")) := by
  constructor
  · rintro e n raw rfl
    simp [qc_approve_invoice, hstatus, hcust, hlines, hgen, post_invoice_to_sap_b1]
  · intro hfail
    constructor <;> simp [qc_approve_invoice, hstatus, hcust, hlines, hgen, hfail]

/-- Witness for c3_approve_outcomes: a 201 with DocEntry 901 posts c3State. -/
theorem c3_approve_outcomes_witness :
    qc_approve_invoice c3State true 100 (SapPost.created 901 "INV901" "raw") =
      (ApproveResult.ok (some 901) (some "INV901"),
       { c3State with invoice := { c3State.invoice with
           status := "posted"
           sap_doc_entry := some 901
           sap_doc_num := some "INV901"
           sap_response := some "raw"
           json_payload := some c3Payload } }) :=
  (c3_approve_outcomes c3State 100 (SapPost.created 901 "INV901" "raw") c3Payload
      rfl (by decide) (by decide) (by decide)).1 901 "INV901" "raw" rfl

/-- Second serial attached to the same line 1 as sampleSerial. -/
def c7SerialB : SerialRow :=
  { sampleSerial with id := 2, serial_number := "SN200" }

/-- Draft with one line holding two serial attachments. -/
def c7State : DraftState :=
  { invoice := freshInvoice
    lines := [sampleLine]
    serials := [sampleSerial, c7SerialB]
    next_line_id := 2
    next_serial_id := 3 }

/-- C7 counterexample: removing serial SN100 from a line that also holds
SN200 deletes the owning line as well (and, by the delete-orphan cascade,
SN200 with it), where the claim says the non-empty line is preserved. -/
theorem c7_counterexample_line_not_preserved :
    (lineSerials c7State sampleLine).length = 2 ∧
    (remove_line_item c7State true 1).1 = RemoveResult.ok "SN100" ∧
    (remove_line_item c7State true 1).2.lines = [] ∧
    (remove_line_item c7State true 1).2.serials = [] := by
  decide

/-- C7 amended: in status draft or pending_qc, remove_line_item deletes the
targeted serial attachment together with its owning line unconditionally,
and the cascade removes every serial attachment of that line; a line is
never preserved after one of its serials is removed. -/
theorem c7_remove_deletes_owning_line (st : DraftState) (item_id : Nat)
    (si : SerialRow) (li : LineRow)
    (hstatus : statusAllowsEdit st.invoice.status = true)
    (hfind : st.serials.find? (fun s => s.id == item_id) = some si)
    (hline : st.lines.find? (fun l => l.id == si.invoice_line_id) = some li)
    (hown : (li.invoice_id == st.invoice.id) = true) :
    remove_line_item st true item_id =
      (RemoveResult.ok si.serial_number,
       { st with
         serials := st.serials.filter (fun s => !(s.invoice_line_id == li.id))
         lines := st.lines.filter (fun l => !(l.id == li.id)) }) := by
  simp [remove_line_item, hstatus, hfind, hline, hown]

/-- Witness for c7_remove_deletes_owning_line at c7State. -/
theorem c7_remove_deletes_owning_line_witness :
    remove_line_item c7State true 1 =
      (RemoveResult.ok sampleSerial.serial_number,
       { c7State with
         serials := c7State.serials.filter (fun s => !(s.invoice_line_id == sampleLine.id))
         lines := c7State.lines.filter (fun l => !(l.id == sampleLine.id)) }) :=
  c7_remove_deletes_owning_line c7State 1 sampleSerial sampleLine
    (by decide) (by decide) (by decide) (by decide)

/-- C9: the BPL branch fields of the generated payload come from the last
serial row iterated by the grouping loop, and the payload does not depend
on the draft-level branch_id and branch_name columns at all. -/
theorem c9_branch_fields_from_last_serial (st : DraftState) (now : Nat)
    (last_serial : SerialRow)
    (hlast : (invoiceSerials st).getLast? = some last_serial) :
    generate_sap_invoice_json st now =
      some { DocDate := now
             DocDueDate := now + 30
             BPL_IDAssignedToInvoice := last_serial.bpl_id
             BPLName := last_serial.bpl_name
             CardCode := st.invoice.customer_code
             DocumentLines := mkDocumentLines (groupSerials (invoiceSerials st)) } ∧
    (∀ b bn,
        generate_sap_invoice_json
          { st with invoice := { st.invoice with branch_id := b, branch_name := bn } } now
          = generate_sap_invoice_json st now) := by
  constructor
  · simp [generate_sap_invoice_json, hlast]
  · intro b bn
    rfl

/-- Witness for c9_branch_fields_from_last_serial at c2State. -/
theorem c9_branch_fields_witness :
    generate_sap_invoice_json c2State 7 =
      some { DocDate := 7
             DocDueDate := 37
             BPL_IDAssignedToInvoice := sampleSerial.bpl_id
             BPLName := sampleSerial.bpl_name
             CardCode := c2State.invoice.customer_code
             DocumentLines := mkDocumentLines (groupSerials (invoiceSerials c2State)) } :=
  (c9_branch_fields_from_last_serial c2State 7 sampleSerial (by decide)).1

/-- On the lookup outcomes where the SAP validation fails, the validation
result dict is empty and the status is failed. -/
theorem runValidation_failed_eq (sn : String) (lk : SapLookup)
    (hfail : lk = SapLookup.notFound ∨ (∃ c, lk = SapLookup.apiError c) ∨
      (∃ m, lk = SapLookup.connError m)) :
    (runValidation sn lk).1 = {} ∧ (runValidation sn lk).2.1 = "failed" := by
  rcases hfail with rfl | ⟨c, rfl⟩ | ⟨m, rfl⟩ <;> exact ⟨rfl, rfl⟩

/-- When the resolved CardCode is absent, add_line_item that passes the
permission, status, input and duplicate checks always succeeds and commits
the flushed state. -/
theorem add_line_item_ok_of_card_none (st : DraftState) (sn cus : String)
    (lk : SapLookup)
    (hstatus : statusAllowsEdit st.invoice.status = true)
    (hsn : (sn == "") = false)
    (hdup : serialExistsInInvoice st sn = false)
    (hcard : (runValidation sn lk).1.CardCode = none) :
    add_line_item st true sn cus lk =
      (AddResult.ok st.next_serial_id (nextLineNumber st)
        (truthy st.invoice.customer_code),
       flushedState st sn cus lk) := by
  simp only [add_line_item, hstatus, hsn, hdup, hcard, Bool.not_true, Bool.not_false,
    Bool.false_eq_true, if_false, truthy, Bool.false_and, Option.getD]
  split
  · rfl
  · rfl

/-- C10: for a draft or pending_qc draft and a fresh serial, add_line_item
succeeds even when the SAP lookup finds nothing or errors: it persists the
new line and serial rows, the serial carrying validation_status failed and
item code UNKNOWN. -/
theorem c10_failed_validation_still_persists (st : DraftState) (sn cus : String)
    (lk : SapLookup)
    (hstatus : statusAllowsEdit st.invoice.status = true)
    (hsn : (sn == "") = false)
    (hdup : serialExistsInInvoice st sn = false)
    (hfail : lk = SapLookup.notFound ∨ (∃ c, lk = SapLookup.apiError c) ∨
      (∃ m, lk = SapLookup.connError m)) :
    add_line_item st true sn cus lk =
      (AddResult.ok st.next_serial_id (nextLineNumber st)
        (truthy st.invoice.customer_code),
       flushedState st sn cus lk) ∧
    (newSerialRow st sn cus lk).validation_status = "failed" ∧
    (newSerialRow st sn cus lk).item_code = "UNKNOWN" ∧
    (newSerialRow st sn cus lk).serial_number = sn ∧
    (newLineRow st sn lk).item_code = "UNKNOWN" := by
  obtain ⟨hv1, hv2⟩ := runValidation_failed_eq sn lk hfail
  refine ⟨add_line_item_ok_of_card_none st sn cus lk hstatus hsn hdup (by rw [hv1]),
    ?_, ?_, rfl, ?_⟩
  · simp [newSerialRow, hv2]
  · simp [newSerialRow, hv1]
  · simp [newLineRow, hv1]

/-- Witness for c10_failed_validation_still_persists: SN404 is unknown to
SAP yet is persisted on the fresh draft with status failed. -/
theorem c10_failed_validation_witness :
    add_line_item freshState true "SN404" "" SapLookup.notFound =
      (AddResult.ok freshState.next_serial_id (nextLineNumber freshState)
        (truthy freshState.invoice.customer_code),
       flushedState freshState "SN404" "" SapLookup.notFound) ∧
    (newSerialRow freshState "SN404" "" SapLookup.notFound).validation_status = "failed" ∧
    (newSerialRow freshState "SN404" "" SapLookup.notFound).item_code = "UNKNOWN" ∧
    (newSerialRow freshState "SN404" "" SapLookup.notFound).serial_number = "SN404" ∧
    (newLineRow freshState "SN404" SapLookup.notFound).item_code = "UNKNOWN" :=
  c10_failed_validation_still_persists freshState "SN404" "" SapLookup.notFound
    (by decide) (by decide) (by decide) (Or.inl rfl)

/-- C8: a cached entry strictly fresher than one hour is served without
any remote call (the response and the cache do not depend on the remote
outcome at all); a stale entry falls through to the remote lookup, and a
successful remote result is upserted with the timestamp refreshed to now. -/
theorem c8_cache_freshness (cache : List CacheEntry) (now : Nat) (sn : String)
    (e : CacheEntry)
    (hsn : (sn == "") = false)
    (hfind : cache.find? (fun x => x.serial_number == sn) = some e) :
    (cacheFresh e now = true →
      ∀ remote, lookup_serial cache now sn remote =
        (LookupResult.cachedHit e.item_code e.item_name e.warehouse_code
          e.warehouse_name e.branch_id e.branch_name, cache)) ∧
    (cacheFresh e now = false →
      (∀ remote, lookup_serial cache now sn remote = lookupRemote cache now sn remote) ∧
      (∀ d raw, ∃ e2 ∈ (lookup_serial cache now sn (RemoteLookup.found d raw)).2,
          e2.serial_number = sn ∧ e2.last_updated = now ∧
          e2.item_code = d.ItemCode ∧ e2.warehouse_code = d.WhsCode)) := by
  constructor
  · intro hfresh remote
    simp [lookup_serial, hsn, hfind, hfresh]
  · intro hstale
    constructor
    · intro remote
      simp [lookup_serial, hsn, hfind, hstale]
    · intro d raw
      have hmem : e ∈ cache := List.mem_of_find?_eq_some hfind
      have hpe : (e.serial_number == sn) = true := (List.find?_eq_some.1 hfind).1
      have hcache2 : (lookup_serial cache now sn (RemoteLookup.found d raw)).2
          = upsertCache cache sn d raw now := by
        simp [lookup_serial, hsn, hfind, hstale, lookupRemote]
      have hany : cache.any (fun x => x.serial_number == sn) = true :=
        List.any_eq_true.2 ⟨e, hmem, hpe⟩
      refine ⟨{ e with
          item_code := d.ItemCode
          item_name := d.itemName
          warehouse_code := d.WhsCode
          warehouse_name := d.WhsName
          branch_id := d.BPLid
          branch_name := d.BPLName
          lookup_status := "validated"
          sap_response := some raw
          last_updated := now }, ?_, ?_⟩
      · rw [hcache2, upsertCache, if_pos hany]
        have hmm := List.mem_map_of_mem (f := fun x : CacheEntry =>
          if (x.serial_number == sn) then
            { x with
              item_code := d.ItemCode
              item_name := d.itemName
              warehouse_code := d.WhsCode
              warehouse_name := d.WhsName
              branch_id := d.BPLid
              branch_name := d.BPLName
              lookup_status := "validated"
              sap_response := some raw
              last_updated := now }
          else x) hmem
        simpa [hpe] using hmm
      · exact ⟨eq_of_beq hpe, rfl, rfl, rfl⟩

/-- Cache row for serial SN1 written at minute 0. -/
def c8Entry : CacheEntry :=
  { serial_number := "SN1"
    item_code := some "I1"
    item_name := some "Item One"
    warehouse_code := some "W1"
    warehouse_name := some "WH One"
    branch_id := some "5"
    branch_name := some "ORD-CHENNAI"
    lookup_status := "validated"
    sap_response := none
    last_updated := 0 }

/-- Witness for c8_cache_freshness: at 59 minutes the entry is served from
the cache whatever the remote would say; at 61 minutes the handler performs
the remote lookup instead. -/
theorem c8_cache_freshness_witness :
    (lookup_serial [c8Entry] 59 "SN1" RemoteLookup.notFound =
      (LookupResult.cachedHit (some "I1") (some "Item One") (some "W1")
        (some "WH One") (some "5") (some "ORD-CHENNAI"), [c8Entry])) ∧
    (lookup_serial [c8Entry] 61 "SN1" RemoteLookup.notFound =
      lookupRemote [c8Entry] 61 "SN1" RemoteLookup.notFound) :=
  ⟨(c8_cache_freshness [c8Entry] 59 "SN1" c8Entry (by decide) (by decide)).1
      (by decide) RemoteLookup.notFound,
   ((c8_cache_freshness [c8Entry] 61 "SN1" c8Entry (by decide) (by decide)).2
      (by decide)).1 RemoteLookup.notFound⟩

/-- Lines of the flushed state that belong to the invoice, phrased through
invoiceLines. -/
theorem invoiceLines_flushed (st : DraftState) (sn cus : String) (lk : SapLookup) :
    invoiceLines (flushedState st sn cus lk) =
      invoiceLines st ++ [newLineRow st sn lk] :=
  flushed_lines_filter st sn cus lk

/-- A pre-existing line of the invoice keeps exactly its serial rows in the
flushed state. -/
theorem lineSerials_flushed_old (st : DraftState) (sn cus : String) (lk : SapLookup)
    (l : LineRow) (hl : l.id ≠ st.next_line_id) :
    lineSerials (flushedState st sn cus lk) l = lineSerials st l := by
  have hnew : ((newSerialRow st sn cus lk).invoice_line_id == l.id) = false := by
    simp only [newSerialRow]
    exact beq_eq_false_iff_ne.2 (Ne.symm hl)
  simp [lineSerials, flushedState, List.filter_append, hnew]

/-- The new line of the flushed state carries exactly the new serial row. -/
theorem lineSerials_flushed_new (st : DraftState) (sn cus : String) (lk : SapLookup)
    (hwf3 : ∀ s ∈ st.serials, s.invoice_line_id < st.next_line_id) :
    lineSerials (flushedState st sn cus lk) (newLineRow st sn lk) =
      [newSerialRow st sn cus lk] := by
  simp only [lineSerials, flushedState, List.filter_append, newSerialRow, newLineRow,
    List.filter_cons, List.filter_nil, beq_self_eq_true, if_true, reduceIte,
    List.append_left_eq_self, List.filter_eq_nil_iff]
  intro s hs
  simpa using Nat.ne_of_lt (hwf3 s hs)

/-- In a well-formed state, flushing appends exactly the new serial row to
the invoice serial list. -/
theorem invoiceSerials_flushed (st : DraftState) (sn cus : String) (lk : SapLookup)
    (hwf : wfState st) :
    invoiceSerials (flushedState st sn cus lk) =
      invoiceSerials st ++ [newSerialRow st sn cus lk] := by
  unfold invoiceSerials
  rw [invoiceLines_flushed, List.flatMap_append]
  have h1 : (invoiceLines st).flatMap (fun l => lineSerials (flushedState st sn cus lk) l)
      = (invoiceLines st).flatMap (fun l => lineSerials st l) := by
    apply List.flatMap_congr
    intro l hl
    apply lineSerials_flushed_old
    exact Nat.ne_of_lt (hwf.1 l (List.mem_of_mem_filter hl))
  rw [h1]
  congr 1
  simp only [List.flatMap_cons, List.flatMap_nil, List.append_nil]
  exact lineSerials_flushed_new st sn cus lk hwf.2.2

/-- A serial number that fails the duplicate check occurs on no serial row
of the invoice. -/
theorem not_mem_invoiceSerials_sn (st : DraftState) (sn : String)
    (h : serialExistsInInvoice st sn = false) :
    ∀ a ∈ invoiceSerials st, ¬(a.serial_number = sn) := by
  intro a ha heq
  simp only [invoiceSerials, invoiceLines, lineSerials, List.mem_flatMap,
    List.mem_filter, beq_iff_eq] at ha
  obtain ⟨l, ⟨hl_mem, hl_inv⟩, ha_mem, ha_line⟩ := ha
  simp only [serialExistsInInvoice, List.any_eq_false, Bool.and_eq_true,
    beq_iff_eq, List.any_eq_true, not_and, not_exists] at h
  exact h a ha_mem heq l hl_mem ha_line.symm hl_inv

/-- Adding a line item preserves distinctness of the serial numbers within
the draft. -/
theorem draftSerialsNodup_add (st : DraftState) (perm : Bool) (sn cus : String)
    (lk : SapLookup) (hwf : wfState st) (hnd : draftSerialsNodup st) :
    draftSerialsNodup (add_line_item st perm sn cus lk).2 := by
  rcases add_line_item_state_cases st perm sn cus lk with h | ⟨h, hdup⟩
  · rw [h]; exact hnd
  · rw [h]
    unfold draftSerialsNodup
    rw [invoiceSerials_flushed st sn cus lk hwf, List.map_append]
    simp only [List.map_cons, List.map_nil]
    have hsn_new : (newSerialRow st sn cus lk).serial_number = sn := rfl
    rw [hsn_new]
    refine List.Nodup.append hnd (List.nodup_singleton sn) ?_
    intro x hx hx2
    rw [List.mem_singleton] at hx2
    obtain ⟨a, hamem, haeq⟩ := List.mem_map.1 hx
    exact not_mem_invoiceSerials_sn st sn hdup a hamem (hx2 ▸ haeq)

/-- C5: in an editable draft a second add of an already-attached serial is
rejected with the duplicate error and the whole state is unchanged; and
add_line_item preserves the at-most-once invariant for serial numbers
within the draft. -/
theorem c5_duplicate_serial_rejected (st : DraftState) (sn cus : String)
    (lk : SapLookup) (perm : Bool)
    (hstatus : statusAllowsEdit st.invoice.status = true)
    (hsn : (sn == "") = false)
    (hwf : wfState st) :
    (serialExistsInInvoice st sn = true →
        add_line_item st true sn cus lk = (AddResult.duplicate, st)) ∧
    (draftSerialsNodup st →
        draftSerialsNodup (add_line_item st perm sn cus lk).2) := by
  constructor
  · intro hdup
    simp [add_line_item, hstatus, hsn, hdup]
  · exact draftSerialsNodup_add st perm sn cus lk hwf

/-- Witness for c5_duplicate_serial_rejected: re-adding SN100 on c2State is
rejected and the state is unchanged; adding the fresh SN200 keeps the
serial numbers distinct. -/
theorem c5_duplicate_serial_witness :
    add_line_item c2State true "SN100" "" (SapLookup.found c1Data)
      = (AddResult.duplicate, c2State) ∧
    draftSerialsNodup (add_line_item c2State true "SN200" "" (SapLookup.found c1Data)).2 :=
  ⟨(c5_duplicate_serial_rejected c2State "SN100" "" (SapLookup.found c1Data) true
      (by decide) (by decide) (by decide)).1 (by decide),
   (c5_duplicate_serial_rejected c2State "SN200" "" (SapLookup.found c1Data) true
      (by decide) (by decide) (by decide)).2 (by decide)⟩

/-- First-seen grouping keys of the serial rows, in insertion order. -/
def firstSeenKeys (ss : List SerialRow) : List String :=
  ss.foldl (fun ks s => if ks.any (fun k => k == groupKey s) then ks else ks ++ [groupKey s]) []

/-- Group content for one key: attributes of its first serial, and the
(serial number, quantity) pairs of all serials carrying that key, in order. -/
def groupForKey (ss : List SerialRow) (k : String) : SerialGroup :=
  { ItemCode := ((ss.find? (fun s => groupKey s == k)).map (fun s => s.item_code)).getD ""
    ItemDescription :=
      ((ss.find? (fun s => groupKey s == k)).map (fun s => s.item_description)).getD ""
    WarehouseCode :=
      ((ss.find? (fun s => groupKey s == k)).map (fun s => s.warehouse_code)).getD ""
    SerialNumbers :=
      (ss.filter (fun s => groupKey s == k)).map (fun s => (s.serial_number, s.quantity)) }

/-- Declarative description of the grouped_items dict: one entry per
first-seen key, in first-seen order. -/
def groupSpec (ss : List SerialRow) : List (String × SerialGroup) :=
  (firstSeenKeys ss).map (fun k => (k, groupForKey ss k))

/-- One more grouping step at the end of the fold. -/
theorem groupSerials_append (ss : List SerialRow) (s : SerialRow) :
    groupSerials (ss ++ [s]) = insertSerial (groupSerials ss) s := by
  simp [groupSerials, List.foldl_append]

/-- One more key-collection step at the end of the fold. -/
theorem firstSeenKeys_append (ss : List SerialRow) (s : SerialRow) :
    firstSeenKeys (ss ++ [s]) =
      if (firstSeenKeys ss).any (fun k => k == groupKey s) then firstSeenKeys ss
      else firstSeenKeys ss ++ [groupKey s] := by
  simp [firstSeenKeys, List.foldl_append]

/-- A key occurs among the first-seen keys exactly when some serial row
carries it. -/
theorem firstSeenKeys_any (ss : List SerialRow) (k : String) :
    (firstSeenKeys ss).any (fun k2 => k2 == k) = ss.any (fun x => groupKey x == k) := by
  induction ss using List.reverseRecOn with
  | nil => simp [firstSeenKeys]
  | append_singleton xs x ih =>
    rw [firstSeenKeys_append, List.any_append]
    simp only [List.any_cons, List.any_nil, Bool.or_false]
    by_cases hx : ((firstSeenKeys xs).any (fun k2 => k2 == groupKey x)) = true
    · rw [if_pos hx, ih]
      by_cases hk : (groupKey x == k) = true
      · have hkk : groupKey x = k := eq_of_beq hk
        rw [hkk] at hx
        rw [ih] at hx
        simp [hx, hk]
      · have hk2 : (groupKey x == k) = false := Bool.eq_false_iff.2 hk
        simp [hk2]
    · rw [if_neg hx, List.any_append, ih]
      simp

/-- The keys of the declarative grouping are the first-seen keys. -/
theorem groupSpec_any (ss : List SerialRow) (key : String) :
    (groupSpec ss).any (fun g => g.1 == key)
      = (firstSeenKeys ss).any (fun k => k == key) := by
  unfold groupSpec
  generalize firstSeenKeys ss = ks
  induction ks with
  | nil => rfl
  | cons a t ih => simp only [List.map_cons, List.any_cons, ih]

/-- Appending a serial whose key is absent from the rows leaves every group
untouched when read for a different key, and reading for its own key yields
just that serial. -/
theorem groupForKey_append_ne (ss : List SerialRow) (x : SerialRow) (k : String)
    (hk : (k == groupKey x) = false) :
    groupForKey (ss ++ [x]) k = groupForKey ss k := by
  have hpx : (groupKey x == k) = false := by
    rcases Bool.eq_false_iff.1 hk with h
    exact Bool.eq_false_iff.2 (fun hc => h (by rw [eq_of_beq hc]; exact beq_self_eq_true k))
  unfold groupForKey
  rw [List.find?_append, List.filter_append]
  simp [hpx]

/-- The grouping loop, fold-described, equals its declarative description. -/
theorem groupSerials_eq_groupSpec (ss : List SerialRow) :
    groupSerials ss = groupSpec ss := by
  induction ss using List.reverseRecOn with
  | nil => rfl
  | append_singleton xs x ih =>
    rw [groupSerials_append, ih]
    by_cases hx : ((firstSeenKeys xs).any (fun k => k == groupKey x)) = true
    · have hany : (groupSpec xs).any (fun g => g.1 == groupKey x) = true := by
        rw [groupSpec_any]; exact hx
      rw [insertSerial, if_pos hany]
      rw [groupSpec, groupSpec, firstSeenKeys_append, if_pos hx, List.map_map]
      apply List.map_congr_left
      intro k hk
      simp only [Function.comp]
      by_cases hkx : (k == groupKey x) = true
      · have hkk : k = groupKey x := eq_of_beq hkx
        rw [if_pos hkx]
        have hmem : xs.any (fun s => groupKey s == k) = true := by
          rw [← firstSeenKeys_any]
          rw [hkk]; exact hx
        obtain ⟨v, hv⟩ := Option.isSome_iff_exists.1
          (List.find?_isSome.2 (List.any_eq_true.1 hmem))
        have hfind2 : (xs ++ [x]).find? (fun s => groupKey s == k) = some v := by
          rw [List.find?_append, hv]; rfl
        have hfx : ((fun s => groupKey s == k) x) = true := by
          rw [hkk]; exact beq_self_eq_true (groupKey x)
        unfold groupForKey
        rw [List.filter_append, hv, hfind2]
        simp [hfx]
      · have hkx2 : (k == groupKey x) = false := by simpa using hkx
        rw [if_neg (by simp [hkx2]), groupForKey_append_ne xs x k hkx2]
    · have hx2 : ((firstSeenKeys xs).any (fun k => k == groupKey x)) = false :=
        Bool.eq_false_iff.2 hx
      have hany : (groupSpec xs).any (fun g => g.1 == groupKey x) = false := by
        rw [groupSpec_any]; exact hx2
      rw [insertSerial, if_neg (by rw [hany]; exact Bool.false_ne_true)]
      rw [groupSpec, groupSpec, firstSeenKeys_append, if_neg hx]
      rw [List.map_append]
      congr 1
      · apply List.map_congr_left
        intro k hk
        have hkx : (k == groupKey x) = false := by
          refine Bool.eq_false_iff.2 (fun hc => ?_)
          have hcc : ((firstSeenKeys xs).any (fun k2 => k2 == groupKey x)) = true :=
            List.any_eq_true.2 ⟨k, hk, hc⟩
          rw [hx2] at hcc
          exact Bool.false_ne_true hcc
        rw [groupForKey_append_ne xs x k hkx]
      · have hxs : xs.any (fun s => groupKey s == groupKey x) = false := by
          rw [← firstSeenKeys_any]
          exact hx2
        have hnone : xs.find? (fun s => groupKey s == groupKey x) = none := by
          rw [List.find?_eq_none]
          intro y hy hc
          have hcc : xs.any (fun s => groupKey s == groupKey x) = true :=
            List.any_eq_true.2 ⟨y, hy, hc⟩
          rw [hxs] at hcc
          exact Bool.false_ne_true hcc
        have hnil : xs.filter (fun s => groupKey s == groupKey x) = [] := by
          rw [List.filter_eq_nil_iff]
          intro y hy hc
          have hcc : xs.any (fun s => groupKey s == groupKey x) = true :=
            List.any_eq_true.2 ⟨y, hy, hc⟩
          rw [hxs] at hcc
          exact Bool.false_ne_true hcc
        unfold groupForKey
        simp only [List.map_cons, List.map_nil]
        rw [List.find?_append, List.filter_append, hnone, hnil]
        simp

/-- Grouped DocumentLines as the (amended) spec words them: one line per
first-seen string key, carrying the attributes of the first serial of the
group, the quantity equal to the number of serials in the group, and every
serial of the group tagged with the group's zero-based index. -/
def specGroupedLines (ss : List SerialRow) : List SapDocLine :=
  (firstSeenKeys ss).enum.map (fun p =>
    { ItemCode := ((ss.find? (fun s => groupKey s == p.2)).map (fun s => s.item_code)).getD ""
      ItemDescription :=
        ((ss.find? (fun s => groupKey s == p.2)).map (fun s => s.item_description)).getD ""
      Quantity := (ss.filter (fun s => groupKey s == p.2)).length
      WarehouseCode :=
        ((ss.find? (fun s => groupKey s == p.2)).map (fun s => s.warehouse_code)).getD ""
      SerialNumbers := (ss.filter (fun s => groupKey s == p.2)).map (fun s =>
        { InternalSerialNumber := s.serial_number
          Quantity := s.quantity
          BaseLineNumber := p.1 }) })

/-- The DocumentLines computed from the grouping loop coincide with the
declarative grouped lines. -/
theorem mkDocumentLines_eq_spec (ss : List SerialRow) :
    mkDocumentLines (groupSerials ss) = specGroupedLines ss := by
  rw [groupSerials_eq_groupSpec]
  unfold mkDocumentLines groupSpec specGroupedLines
  rw [List.enum_map, List.map_map]
  apply List.map_congr_left
  intro p hp
  simp [groupForKey, List.map_map, Function.comp]

/-- Serial S1 on item A in warehouse W, attached to line 1. -/
def c4sA1 : SerialRow :=
  { sampleSerial with
    id := 1
    serial_number := "S1"
    item_code := "A"
    warehouse_code := "W"
    invoice_line_id := 1 }

/-- Serial S2 on item A in warehouse W, attached to line 1. -/
def c4sA2 : SerialRow :=
  { c4sA1 with id := 2, serial_number := "S2" }

/-- Serial S3 on item B in warehouse W, attached to line 2. -/
def c4sB3 : SerialRow :=
  { c4sA1 with
    id := 3
    serial_number := "S3"
    item_code := "B"
    invoice_line_id := 2 }

/-- Line 1 of the grouping example (item A, warehouse W). -/
def c4LineA : LineRow :=
  { sampleLine with id := 1, item_code := "A", warehouse_code := "W" }

/-- Line 2 of the grouping example (item B, warehouse W). -/
def c4LineB : LineRow :=
  { sampleLine with
    id := 2
    line_number := 2
    item_code := "B"
    warehouse_code := "W" }

/-- Draft holding serials S1, S2 on item A/warehouse W and S3 on item
B/warehouse W. -/
def c4ExState : DraftState :=
  { invoice := { freshInvoice with customer_code := some "C1" }
    lines := [c4LineA, c4LineB]
    serials := [c4sA1, c4sA2, c4sB3]
    next_line_id := 3
    next_serial_id := 4 }

/-- Serial U1 on item A in warehouse B_C. -/
def c4ux : SerialRow :=
  { sampleSerial with
    id := 1
    serial_number := "U1"
    item_code := "A"
    warehouse_code := "B_C"
    invoice_line_id := 1 }

/-- Serial U2 on item A_B in warehouse C: a different (item, warehouse)
pair whose underscore-joined key collides with that of U1. -/
def c4uy : SerialRow :=
  { sampleSerial with
    id := 2
    serial_number := "U2"
    item_code := "A_B"
    warehouse_code := "C"
    invoice_line_id := 2 }

/-- Line holding U1. -/
def c4uLine1 : LineRow :=
  { sampleLine with id := 1, item_code := "A", warehouse_code := "B_C" }

/-- Line holding U2. -/
def c4uLine2 : LineRow :=
  { sampleLine with
    id := 2
    line_number := 2
    item_code := "A_B"
    warehouse_code := "C" }

/-- Draft holding U1 and U2, whose (item, warehouse) pairs differ but whose
string grouping keys coincide. -/
def c4uState : DraftState :=
  { invoice := freshInvoice
    lines := [c4uLine1, c4uLine2]
    serials := [c4ux, c4uy]
    next_line_id := 3
    next_serial_id := 3 }

/-- C4 counterexample: the grouping key is the string
item_code_warehouse_code, which is not injective in the pair: the two
serials U1 (item A, warehouse B_C) and U2 (item A_B, warehouse C) have
distinct (item code, warehouse code) pairs yet the payload has a single
document line, where the claim demands one line per distinct pair, i.e.
two. -/
theorem c4_counterexample_underscore_collision :
    (c4ux.item_code, c4ux.warehouse_code) ≠ (c4uy.item_code, c4uy.warehouse_code) ∧
    groupKey c4ux = groupKey c4uy ∧
    (generate_sap_invoice_json c4uState 0).map (fun p => p.DocumentLines.length)
      = some 1 := by
  decide

/-- C4 amended: the payload groups the serial attachments of all lines by
the underscore-joined string of item code and warehouse code (which agrees
with the pair whenever the join is collision-free): one document line per
first-seen key in first-seen order, the quantity is the number of serials
in the group, every serial of the group is tagged with the group's
zero-based index, and the line attributes come from the group's first
serial.  On the concrete S1, S2 on A/W plus S3 on B/W draft this yields
exactly 2 lines with indices 0 and 1 and quantities 2 and 1. -/
theorem c4_payload_grouping (st : DraftState) (now : Nat) (payload : SapInvoice)
    (hgen : generate_sap_invoice_json st now = some payload) :
    payload.DocumentLines = specGroupedLines (invoiceSerials st) ∧
    (generate_sap_invoice_json c4ExState 0).map (fun p =>
        p.DocumentLines.map (fun dl => (dl.ItemCode, dl.Quantity,
          dl.SerialNumbers.map (fun e => (e.InternalSerialNumber, e.BaseLineNumber))))) =
      some [("A", 2, [("S1", 0), ("S2", 0)]), ("B", 1, [("S3", 1)])] := by
  constructor
  · simp only [generate_sap_invoice_json] at hgen
    cases hlast : (invoiceSerials st).getLast? with
    | none =>
      rw [hlast] at hgen
      exact absurd hgen (by simp)
    | some s =>
      rw [hlast] at hgen
      have hrec := Option.some.inj hgen
      rw [← hrec]
      exact mkDocumentLines_eq_spec (invoiceSerials st)
  · decide

/-- Witness for c4_payload_grouping at the S1, S2, S3 example draft. -/
theorem c4_payload_grouping_witness :
    (SapInvoice.mk 0 30 "5" "ORD-CHENNAI" (some "C1")
        (mkDocumentLines (groupSerials (invoiceSerials c4ExState)))).DocumentLines
      = specGroupedLines (invoiceSerials c4ExState) :=
  (c4_payload_grouping c4ExState 0
      (SapInvoice.mk 0 30 "5" "ORD-CHENNAI" (some "C1")
        (mkDocumentLines (groupSerials (invoiceSerials c4ExState)))) rfl).1

end LobbyInvoice
